import Mathlib

/-!
Verification development for the go-redis-clone server.

The embedding covers the command dispatch layer of `handleConn`, the two
command handlers `handleGetCommand` and `handleSetCommand`, the in-memory
database (a Go `map[string]string`, modelled as an association list with one
binding per key), and the lifecycle operations `Start` / `Stop` with their
client registry.  Decoded requests are the Go `[]any` values produced by the
protocol decoder: each element either is a string or is not, which is all the
handlers' type assertions (`command[i].(string)`) observe.
-/

namespace GoRedisClone

/-- One element of a decoded request (Go `any`).  The handlers only perform
string type assertions on elements, so a non-string element is represented
abstractly by a tag. -/
inductive Elem where
  | str (s : String)
  | nonStr (tag : Nat)
  deriving DecidableEq, Repr

/-- ASCII uppercase of a character, the action of Go's `unicode.ToUpper` on
the ASCII range (command names in scope are ASCII). -/
def upperChar (c : Char) : Char :=
  if c.toNat ≥ 97 ∧ c.toNat ≤ 122 then Char.ofNat (c.toNat - 32) else c

/-- Go's `strings.ToUpper`, mapping `unicode.ToUpper` over the characters
(restricted to its ASCII action). -/
def toUpperStr (s : String) : String :=
  String.mk (s.data.map upperChar)

/-- Go's `value, ok := s.database[key]` map read: find the binding for `key`. -/
def dbLookup : List (String × String) → String → Option String
  | [], _ => none
  | (k', v) :: rest, k => if k' = k then some v else dbLookup rest k

/-- Go's `s.database[key] = value` map write: replace the binding for `key`
if present, otherwise append one.  The association list keeps at most one
binding per key, matching Go map semantics. -/
def dbSet : List (String × String) → String → String → List (String × String)
  | [], k, v => [(k, v)]
  | (k', v') :: rest, k, v =>
      if k' = k then (k, v) :: rest else (k', v') :: dbSet rest k v

/-- The bulk reply `fmt.Sprintf("$%d\r\n%s\r\n", len(value), value)`;
Go `len` on a string is its UTF-8 byte length. -/
def bulkReply (value : String) : String :=
  "$" ++ toString value.utf8ByteSize ++ "\r\n" ++ value ++ "\r\n"

/-- Whether a reply string is a wire-level error reply (`-ERR ...`). -/
def isErrReply (s : String) : Bool :=
  s.take 4 = "-ERR"

/-- The Go `ok` of the type assertion `command[i].(string)` applied to an
optional request element. -/
def isStrElem : Option Elem → Bool
  | some (Elem.str _) => true
  | _ => false

/-- `handleGetCommand`: returns the (unchanged) database together with the
bytes the handler writes to the connection.  Mirrors src/unnamed/part_000
lines 299-327: fewer than 2 elements or a non-string key writes
`-ERR missing key\r\n`; otherwise a present key writes a bulk reply and an
absent key writes the null reply `_\r\n`. -/
def handleGetCommand (db : List (String × String)) (command : List Elem) :
    List (String × String) × String :=
  if command.length < 2 then (db, "-ERR missing key\r\n")
  else
    match command[1]? with
    | some (Elem.str key) =>
        match dbLookup db key with
        | some value => (db, bulkReply value)
        | none => (db, "_\r\n")
    | _ => (db, "-ERR missing key\r\n")

/-- `handleSetCommand`: returns the updated database together with the bytes
the handler writes.  Mirrors src/unnamed/part_000 lines 329-361: fewer than 3
elements, or a non-string key or value, writes the error reply
`-ERR missing ket and value\r\n` (typo as in the source) and leaves the
database untouched; otherwise the binding is stored and `+OK\r\n` written. -/
def handleSetCommand (db : List (String × String)) (command : List Elem) :
    List (String × String) × String :=
  if command.length < 3 then (db, "-ERR missing ket and value\r\n")
  else
    match command[1]?, command[2]? with
    | some (Elem.str key), some (Elem.str value) =>
        (dbSet db key value, "+OK\r\n")
    | _, _ => (db, "-ERR missing ket and value\r\n")

/-- One iteration of the `handleConn` read loop after `readArray` yielded a
decoded request (src/unnamed/part_000 lines 248-277).  Result: the database
after the request, the bytes written to the connection for it, and whether
the loop continues.  An empty request or a non-string first element breaks
the loop with nothing written.  Otherwise the command name is dispatched
case-insensitively to GET/SET (unknown names hit the switch default, which
writes nothing), and then the loop writes an unconditional `+OK\r\n` to the
connection before continuing. -/
def processRequest (db : List (String × String)) (request : List Elem) :
    List (String × String) × String × Bool :=
  match request with
  | [] => (db, "", false)
  | Elem.nonStr _ :: _ => (db, "", false)
  | Elem.str commandName :: _ =>
      let handled :=
        if toUpperStr commandName = "GET" then handleGetCommand db request
        else if toUpperStr commandName = "SET" then handleSetCommand db request
        else (db, "")
      (handled.1, handled.2 ++ "+OK\r\n", true)

/-- The `handleConn` read loop over a finite sequence of decoded requests:
threads the database through `processRequest` and concatenates everything
written to the connection, stopping early when an iteration breaks. -/
def processRequests (db : List (String × String)) :
    List (List Elem) → List (String × String) × String
  | [] => (db, "")
  | r :: rest =>
      let step := processRequest db r
      if step.2.2 then
        let next := processRequests step.1 rest
        (next.1, step.2.1 ++ next.2)
      else (step.1, step.2.1)

/-- `applySets db sets` folds a sequence of key/value writes into the
database, modelling a sequence of successful SET executions. -/
def applySets (db : List (String × String)) (sets : List (String × String)) :
    List (String × String) :=
  sets.foldl (fun d p => dbSet d p.1 p.2) db

/-- The lifecycle-relevant fields of the `server` struct.  `clients` holds the
registered client ids (the registry map's key set), `closedClients` records
every connection on which `Close` has been called by the shutdown sweep, and
`listenerClosed` whether `listener.Close` has been called. -/
structure ServerState where
  started : Bool
  shuttingDown : Bool
  clients : List Nat
  lastClientId : Nat
  closedClients : List Nat
  listenerClosed : Bool
  database : List (String × String)
  deriving DecidableEq, Repr

/-- The state built by `NewServer`: nothing started, no clients, empty
database. -/
def NewServer : ServerState :=
  { started := false
    shuttingDown := false
    clients := []
    lastClientId := 0
    closedClients := []
    listenerClosed := false
    database := [] }

/-- The accept-path registration in `Start`: under the registry lock,
increment `lastClientId` and insert the new connection under that id. -/
def registerClient (st : ServerState) : ServerState :=
  { st with
    lastClientId := st.lastClientId + 1
    clients := st.clients ++ [st.lastClientId + 1] }

/-- The state transformation of a successful `Stop`: mark `shuttingDown`,
close every registered client (recorded in `closedClients`), clear the
registry, close the listener.  On an already-shutting-down state nothing
changes. -/
def stopState (st : ServerState) : ServerState :=
  if st.shuttingDown then st
  else
    { st with
      shuttingDown := true
      closedClients := st.closedClients ++ st.clients
      clients := []
      listenerClosed := true }

/-- `Stop` (src/server.go lines 72-108): under the registry lock, an already
shutting-down server draws the error; otherwise the sweep runs and `Stop`
returns nil.  `closeFails` says which client connections fail to close — a
failure is only logged, so it affects neither the state transition nor the
return value. -/
def serverStop (_closeFails : Nat → Bool) (st : ServerState) :
    ServerState × Option String :=
  if st.shuttingDown then (st, some "Already shutting down")
  else (stopState st, none)

/-- An observable event of the accept loop: a connection is accepted, the
accept call fails with error `e`, or a concurrent `Stop` call runs to
completion between accepts. -/
inductive ServerEvent where
  | accept
  | acceptFail (e : String)
  | stopCall
  deriving DecidableEq, Repr

/-- `true` for every event that is not an accept failure. -/
def notFail : ServerEvent → Bool
  | ServerEvent.acceptFail _ => false
  | _ => true

/-- The accept loop of `Start` run over a finite event trace: accepts
register a client, a concurrent `Stop` applies its sweep, and an accept
failure ends the loop — returning nil when `shuttingDown` (read under the
registry lock) is set at that moment, and the accept error otherwise.  An
exhausted trace means the loop is still blocked in accept; no error has been
returned. -/
def runLoop (st : ServerState) : List ServerEvent → ServerState × Option String
  | [] => (st, none)
  | ServerEvent.accept :: rest => runLoop (registerClient st) rest
  | ServerEvent.stopCall :: rest => runLoop (stopState st) rest
  | ServerEvent.acceptFail e :: _ =>
      (st, if st.shuttingDown then none else some e)

/-- `Start` (src/server.go lines 39-69): the compare-and-set on `started`
admits exactly one caller into the accept loop; any other caller gets the
"already started" error and touches nothing. -/
def serverStart (st : ServerState) (events : List ServerEvent) :
    ServerState × Option String :=
  if st.started then (st, some "server already started")
  else runLoop { st with started := true } events

end GoRedisClone

namespace GoRedisClone

/-- Claim C1: on a fresh store the scenario SET foo bar / GET foo does not
produce exactly `+OK\r\n` and `$3\r\nbar\r\n`: the read loop appends an
unconditional `+OK\r\n` after each dispatched request, so the connection
receives `+OK\r\n+OK\r\n` for the SET and `$3\r\nbar\r\n+OK\r\n` for the
GET. -/
theorem set_then_get_reply_bytes :
    processRequests []
      [[Elem.str "SET", Elem.str "foo", Elem.str "bar"],
       [Elem.str "GET", Elem.str "foo"]] =
      ([("foo", "bar")], "+OK\r\n+OK\r\n" ++ "$3\r\nbar\r\n+OK\r\n") := by
  decide

/-- Claim C2: a decoded request whose command name is neither GET nor SET is
not answered with silence: the dispatch loop still writes the unconditional
acknowledgement `+OK\r\n` for it (and continues the loop). -/
theorem unknown_command_writes_ack :
    processRequest [] [Elem.str "PING"] = ([], "+OK\r\n", true) := by
  decide

/-- Looking up the key just written finds the written value. -/
theorem lookup_dbSet_self (db : List (String × String)) (k v : String) :
    dbLookup (dbSet db k v) k = some v := by
  induction db with
  | nil => simp [dbSet, dbLookup]
  | cons hd tl ih =>
      obtain ⟨k', v'⟩ := hd
      by_cases h : k' = k
      · simp [dbSet, dbLookup, h]
      · simp [dbSet, dbLookup, h, ih]

/-- Writing one key leaves the bindings of every other key unchanged. -/
theorem lookup_dbSet_other (db : List (String × String)) (k' v k : String)
    (h : k' ≠ k) : dbLookup (dbSet db k' v) k = dbLookup db k := by
  induction db with
  | nil => simp [dbSet, dbLookup, h]
  | cons hd tl ih =>
      obtain ⟨k₀, v₀⟩ := hd
      by_cases h0 : k₀ = k'
      · subst h0
        simp [dbSet, dbLookup, h]
      · simp [dbSet, dbLookup, h0, ih]

/-- A sequence of writes that never touches `k` leaves `k`'s binding
unchanged. -/
theorem lookup_applySets (sets : List (String × String))
    (db : List (String × String)) (k : String) (hk : ∀ p ∈ sets, p.1 ≠ k) :
    dbLookup (applySets db sets) k = dbLookup db k := by
  induction sets generalizing db with
  | nil => rfl
  | cons p rest ih =>
      have hp : p.1 ≠ k := hk p (by simp)
      have hrest : ∀ q ∈ rest, q.1 ≠ k := fun q hq => hk q (by simp [hq])
      calc dbLookup (applySets (dbSet db p.1 p.2) rest) k
          = dbLookup (dbSet db p.1 p.2) k := ih (dbSet db p.1 p.2) hrest
        _ = dbLookup db k := lookup_dbSet_other db p.1 p.2 k hp

/-- Claim C3 counterexample: a GET request with two arguments (argument count
not exactly one) is not answered with an error reply: on an empty store the
handler writes the null reply `_\r\n`, which is not an `-ERR` reply, and the
loop continues. -/
theorem get_wrong_arity_counterexample :
    (handleGetCommand [] [Elem.str "GET", Elem.str "k", Elem.str "x"]).2 =
      "_\r\n" ∧
    isErrReply
      (handleGetCommand [] [Elem.str "GET", Elem.str "k", Elem.str "x"]).2 =
      false ∧
    (processRequest [] [Elem.str "GET", Elem.str "k", Elem.str "x"]).2.2 =
      true := by
  decide

/-- Claim C3 (amended): the handlers reject only missing arguments — a GET
request with no argument, or a SET request with fewer than two arguments,
makes the server write the corresponding error reply to the client, and the
read loop continues (the connection stays open); extra arguments are not
rejected. -/
theorem arity_error_replies (db : List (String × String)) (request : List Elem)
    (name : String) (hname : request[0]? = some (Elem.str name)) :
    (toUpperStr name = "GET" → request.length < 2 →
        processRequest db request =
          (db, "-ERR missing key\r\n" ++ "+OK\r\n", true)) ∧
    (toUpperStr name = "SET" → request.length < 3 →
        processRequest db request =
          (db, "-ERR missing ket and value\r\n" ++ "+OK\r\n", true)) := by
  cases request with
  | nil => simp at hname
  | cons first rest =>
      obtain rfl : first = Elem.str name := by simpa using hname
      constructor
      · intro hG hlen
        have hlen' : rest.length + 1 < 2 := by simpa using hlen
        simp [processRequest, handleGetCommand, hG, hlen']
      · intro hS hlen
        have hlen' : rest.length + 1 < 3 := by simpa using hlen
        have hne : ¬ toUpperStr name = "GET" := by rw [hS]; decide
        simp [processRequest, handleSetCommand, hS, hne, hlen']

/-- Claim C3 witness: a bare GET and a bare lowercase `set` each draw the
error reply followed by the loop's acknowledgement, and the loop goes on. -/
theorem arity_error_replies_witness :
    processRequest [] [Elem.str "GET"] =
      ([], "-ERR missing key\r\n" ++ "+OK\r\n", true) ∧
    processRequest [("a", "b")] [Elem.str "set"] =
      ([("a", "b")], "-ERR missing ket and value\r\n" ++ "+OK\r\n", true) :=
  ⟨(arity_error_replies [] [Elem.str "GET"] "GET" rfl).1 (by decide) (by decide),
   (arity_error_replies [("a", "b")] [Elem.str "set"] "set" rfl).2 (by decide)
     (by decide)⟩

/-- Claim C4: a well-formed GET of a key never written by any SET yields the
null reply `_\r\n` (not an error), and a GET of a present key yields the bulk
reply carrying the stored value. -/
theorem get_null_or_bulk :
    (∀ (sets : List (String × String)) (k : String),
        (∀ p ∈ sets, p.1 ≠ k) →
        handleGetCommand (applySets [] sets) [Elem.str "GET", Elem.str k] =
          (applySets [] sets, "_\r\n")) ∧
    (∀ (db : List (String × String)) (k v : String),
        dbLookup db k = some v →
        handleGetCommand db [Elem.str "GET", Elem.str k] =
          (db, bulkReply v)) := by
  constructor
  · intro sets k hk
    have h : dbLookup (applySets [] sets) k = none := by
      rw [lookup_applySets sets [] k hk]
      rfl
    simp [handleGetCommand, h]
  · intro db k v hv
    simp [handleGetCommand, hv]

/-- Claim C4 witness: GET of a never-set key on a store that saw one other
SET yields null; GET of a present key yields its bulk reply. -/
theorem get_null_or_bulk_witness :
    handleGetCommand (applySets [] [("a", "1")]) [Elem.str "GET", Elem.str "k"] =
      (applySets [] [("a", "1")], "_\r\n") ∧
    handleGetCommand [("k", "v")] [Elem.str "GET", Elem.str "k"] =
      ([("k", "v")], bulkReply "v") :=
  ⟨get_null_or_bulk.1 [("a", "1")] "k" (by decide),
   get_null_or_bulk.2 [("k", "v")] "k" "v" (by decide)⟩

/-- Claim C5: last-write-wins — after SET(k, v1) then SET(k, v2), a GET(k)
returns the bulk reply for v2 (never v1, never anything else), on any prior
store contents. -/
theorem set_set_get_last_write_wins (db : List (String × String))
    (k v1 v2 : String) :
    handleGetCommand
        ((handleSetCommand
            ((handleSetCommand db [Elem.str "SET", Elem.str k, Elem.str v1]).1)
            [Elem.str "SET", Elem.str k, Elem.str v2]).1)
        [Elem.str "GET", Elem.str k] =
      (dbSet (dbSet db k v1) k v2, bulkReply v2) := by
  simp [handleSetCommand, handleGetCommand, lookup_dbSet_self]

/-- Claim C9: the GET handler never changes the store, whatever the request
looks like — wrong arity, non-string key, present or absent key. -/
theorem get_preserves_store (db : List (String × String)) (command : List Elem) :
    (handleGetCommand db command).1 = db := by
  unfold handleGetCommand
  split
  · rfl
  · split
    · split <;> rfl
    · rfl

/-- Claim C10: every SET error path — fewer than two arguments, or a
non-string key or value element — writes the error reply and leaves the
store exactly as it was. -/
theorem set_error_keeps_store (db : List (String × String))
    (command : List Elem)
    (h : command.length < 3 ∨ isStrElem command[1]? = false ∨
        isStrElem command[2]? = false) :
    handleSetCommand db command = (db, "-ERR missing ket and value\r\n") := by
  unfold handleSetCommand
  split
  · rfl
  · rename_i hlen
    split
    · rename_i key value h1 h2
      rcases h with h | h | h
      · exact absurd h hlen
      · rw [h1] at h
        simp [isStrElem] at h
      · rw [h2] at h
        simp [isStrElem] at h
    · rfl

/-- Claim C10 witness: SET with a non-string key writes the error reply and
the store is unchanged. -/
theorem set_error_keeps_store_witness :
    handleSetCommand [("a", "b")] [Elem.str "SET", Elem.nonStr 0, Elem.str "v"] =
      ([("a", "b")], "-ERR missing ket and value\r\n") :=
  set_error_keeps_store [("a", "b")]
    [Elem.str "SET", Elem.nonStr 0, Elem.str "v"]
    (Or.inr (Or.inl (by decide)))

/-- `stopState` preserves the started flag. -/
theorem stopState_started (st : ServerState) :
    (stopState st).started = st.started := by
  unfold stopState
  split <;> rfl

/-- After `stopState` the shutting-down flag is set (it was either set
already or has just been set). -/
theorem stopState_shuttingDown (st : ServerState) :
    (stopState st).shuttingDown = true := by
  unfold stopState
  split
  · assumption
  · rfl

/-- The accept loop never changes the started flag. -/
theorem runLoop_started (events : List ServerEvent) (st : ServerState) :
    ((runLoop st events).1).started = st.started := by
  induction events generalizing st with
  | nil => rfl
  | cons ev rest ih =>
      cases ev with
      | accept => exact ih (registerClient st)
      | stopCall => exact (ih (stopState st)).trans (stopState_started st)
      | acceptFail e => rfl

/-- On a server whose started flag is set, `Start` only returns the
"server already started" error and leaves the state untouched. -/
theorem serverStart_already (st : ServerState) (ev : List ServerEvent)
    (h : st.started = true) :
    serverStart st ev = (st, some "server already started") := by
  simp [serverStart, h]

/-- Claim C6: on a not-yet-started server the first `Start` call flips the
started flag and proceeds into the accept loop; any `Start` call after it
returns the "server already started" error and leaves the server state
exactly as it was. -/
theorem start_once (st : ServerState) (ev₁ ev₂ : List ServerEvent)
    (h : st.started = false) :
    ((serverStart st ev₁).1).started = true ∧
    serverStart ((serverStart st ev₁).1) ev₂ =
      ((serverStart st ev₁).1, some "server already started") := by
  have h1 : ((serverStart st ev₁).1).started = true := by
    simp [serverStart, h, runLoop_started]
  exact ⟨h1, serverStart_already _ ev₂ h1⟩

/-- Claim C6 witness: starting the fresh server once succeeds; a second
`Start` on the resulting state errors and changes nothing. -/
theorem start_once_witness :
    ((serverStart NewServer [ServerEvent.accept]).1).started = true ∧
    serverStart ((serverStart NewServer [ServerEvent.accept]).1) [] =
      ((serverStart NewServer [ServerEvent.accept]).1,
        some "server already started") :=
  start_once NewServer [ServerEvent.accept] [] rfl

/-- Claim C7: the first `Stop` returns nil (whatever connection closes fail),
sets the shutting-down flag, closes every registered client, clears the
registry and closes the listener; every later `Stop` returns the
"Already shutting down" error and closes nothing again (the state is
untouched). -/
theorem stop_once (cf cf' : Nat → Bool) (st : ServerState)
    (h : st.shuttingDown = false) :
    (serverStop cf st).2 = none ∧
    ((serverStop cf st).1).shuttingDown = true ∧
    ((serverStop cf st).1).clients = [] ∧
    (∀ c ∈ st.clients, c ∈ ((serverStop cf st).1).closedClients) ∧
    ((serverStop cf st).1).listenerClosed = true ∧
    serverStop cf' ((serverStop cf st).1) =
      ((serverStop cf st).1, some "Already shutting down") := by
  refine ⟨?_, ?_, ?_, ?_, ?_, ?_⟩
  · simp [serverStop, h]
  · simp [serverStop, stopState, h]
  · simp [serverStop, stopState, h]
  · intro c hc
    simp [serverStop, stopState, h, List.mem_append]
    exact Or.inr hc
  · simp [serverStop, stopState, h]
  · simp [serverStop, stopState, h]

/-- Claim C7 witness: stopping a running server with two clients — one whose
close fails — returns nil, clears the registry, closes client 1, and a second
`Stop` only errors. -/
theorem stop_once_witness :
    (serverStop (fun _ => true) { NewServer with clients := [1, 2] }).2 =
      none ∧
    ((serverStop (fun _ => true) { NewServer with clients := [1, 2] }).1).clients =
      [] ∧
    1 ∈ ((serverStop (fun _ => true)
        { NewServer with clients := [1, 2] }).1).closedClients ∧
    serverStop (fun _ => false)
        ((serverStop (fun _ => true) { NewServer with clients := [1, 2] }).1) =
      ((serverStop (fun _ => true) { NewServer with clients := [1, 2] }).1,
        some "Already shutting down") := by
  refine ⟨?_, ?_, ?_, ?_⟩
  · exact (stop_once (fun _ => true) (fun _ => false) _ rfl).1
  · exact (stop_once (fun _ => true) (fun _ => false) _ rfl).2.2.1
  · exact (stop_once (fun _ => true) (fun _ => false) _ rfl).2.2.2.1 1 (by decide)
  · exact (stop_once (fun _ => true) (fun _ => false) _ rfl).2.2.2.2.2

/-- When the accept loop hits an accept failure after failure-free events,
the returned error is nil exactly when the shutting-down flag is set at that
moment. -/
theorem runLoop_fail (pre : List ServerEvent) (st : ServerState) (e : String)
    (h : pre.all notFail = true) :
    (runLoop st (pre ++ [ServerEvent.acceptFail e])).2 =
      if st.shuttingDown = true ∨ ServerEvent.stopCall ∈ pre then none
      else some e := by
  induction pre generalizing st with
  | nil =>
      by_cases hs : st.shuttingDown <;> simp [runLoop, hs]
  | cons ev rest ih =>
      cases ev with
      | accept =>
          have h' : rest.all notFail = true := by simpa [notFail] using h
          have hih := ih (registerClient st) h'
          have hreg : (registerClient st).shuttingDown = st.shuttingDown := rfl
          have hstep :
              runLoop st ((ServerEvent.accept :: rest) ++
                  [ServerEvent.acceptFail e]) =
                runLoop (registerClient st)
                  (rest ++ [ServerEvent.acceptFail e]) := rfl
          rw [hstep, hih, hreg]
          simp [List.mem_cons]
      | stopCall =>
          have h' : rest.all notFail = true := by simpa [notFail] using h
          have hih := ih (stopState st) h'
          have hstep :
              runLoop st ((ServerEvent.stopCall :: rest) ++
                  [ServerEvent.acceptFail e]) =
                runLoop (stopState st)
                  (rest ++ [ServerEvent.acceptFail e]) := rfl
          rw [hstep, hih, stopState_shuttingDown st]
          simp [List.mem_cons]
      | acceptFail e' =>
          simp [notFail] at h

/-- Claim C8: starting the fresh server on a trace of accepts and stop calls
that ends in an accept failure, `Start` returns nil exactly when a `Stop`
ran before the failure (so the shutting-down flag was set at that moment),
and otherwise returns that accept error. -/
theorem accept_fail_propagation (pre : List ServerEvent) (e : String)
    (h : pre.all notFail = true) :
    (serverStart NewServer (pre ++ [ServerEvent.acceptFail e])).2 =
      if ServerEvent.stopCall ∈ pre then none else some e := by
  have hrun := runLoop_fail pre { NewServer with started := true } e h
  simpa [serverStart, NewServer] using hrun

/-- Claim C8 witness: with a `Stop` before the accept failure `Start`
returns nil; without one it returns the accept error. -/
theorem accept_fail_propagation_witness :
    (serverStart NewServer
        ([ServerEvent.stopCall] ++ [ServerEvent.acceptFail "accept failed"])).2 =
      none ∧
    (serverStart NewServer
        ([ServerEvent.accept] ++ [ServerEvent.acceptFail "accept failed"])).2 =
      some "accept failed" := by
  constructor
  · have h := accept_fail_propagation [ServerEvent.stopCall] "accept failed"
      (by decide)
    simpa using h
  · have h := accept_fail_propagation [ServerEvent.accept] "accept failed"
      (by decide)
    simpa using h

end GoRedisClone
